import Mathlib

/-
Verification of TensorView (src/src/include/impl/TensorView.h).

TensorView<T> is a zero-copy wrapper around a raw pointer: it stores a
data pointer, a size_t element count, and a shared-ownership handle.
Element access is one-based (Lua convention) via get and set, which throw
std out_of_range when the index fails the check
  idx < 1 || idx > static_cast<int>(length_).

Embedding choices:
  - the element type T is a type parameter, as in the C++ template;
  - memory is a total map from addresses (Nat) to values, with address 0
    playing the role of the null pointer;
  - size_t values are Nat; the C int type is 32 bits wide, so the cast
    static_cast<int> reduces modulo 2^32 and reinterprets as signed;
  - a thrown exception is an error value; set, a non-const member, returns
    the error-or-unit outcome together with the view and the memory after
    the call, so that frame properties are statable.
-/

/-- Modulus of the 32-bit C int type, 2^32. -/
def intModulus : Nat := 4294967296

/-- Half the modulus of the 32-bit C int type, 2^31: the first size_t
value that is no longer representable as a nonnegative int. -/
def intHalfModulus : Nat := 2147483648

/-- Meaning of static_cast<int>(n) for a size_t value n: reduce modulo
2^32 and reinterpret the result as a signed 32-bit value. -/
def intOfSizeT (n : Nat) : Int :=
  if n % intModulus < intHalfModulus then ((n % intModulus : Nat) : Int)
  else ((n % intModulus : Nat) : Int) - (intModulus : Int)

/-- The single failure condition of the component: the std out_of_range
exception thrown by get and set. -/
inductive TVError where
  | indexOutOfRange
  deriving DecidableEq

/-- Memory holding the pointee storage: a total map from addresses to
values. Address 0 plays the role of the null pointer. -/
abbrev Heap (α : Type) : Type := Nat → α

/-- The data members of TensorView<T>: T* data_, size_t length_, and
shared_ptr<void> owner_ (recorded as whether the handle is non-null).
The pointee values live in the Heap, not in the view. -/
structure TensorView where
  data_ : Nat
  length_ : Nat
  owner_ : Bool
  deriving DecidableEq

namespace TensorView

variable {α : Type}

/-- The default constructor TensorView(): data_(nullptr), length_(0),
owner_(nullptr). -/
def defaultView : TensorView := ⟨0, 0, false⟩

/-- int length() const: returns static_cast<int>(length_). -/
def length (v : TensorView) : Int := intOfSizeT v.length_

/-- size_t size() const: returns length_ at full native width. -/
def size (v : TensorView) : Nat := v.length_

/-- T* data() const: returns the raw pointer data_. -/
def data (v : TensorView) : Nat := v.data_

/-- bool empty() const: returns length_ == 0. -/
def empty (v : TensorView) : Bool := v.length_ == 0

/-- bool isValid() const: returns data_ != nullptr. -/
def isValid (v : TensorView) : Bool := v.data_ != 0

/-- T get(int idx) const: throws out_of_range when
idx < 1 || idx > static_cast<int>(length_), else returns data_[idx - 1]. -/
def get (v : TensorView) (heap : Heap α) (idx : Int) : Except TVError α :=
  if idx < 1 ∨ idx > v.length then .error .indexOutOfRange
  else .ok (heap (v.data_ + (idx - 1).toNat))

/-- void set(int idx, T val): throws out_of_range when
idx < 1 || idx > static_cast<int>(length_), else assigns data_[idx - 1] = val.
The result records the outcome, the view after the call, and the memory
after the call. -/
def set (v : TensorView) (heap : Heap α) (idx : Int) (val : α) :
    Except TVError Unit × TensorView × Heap α :=
  if idx < 1 ∨ idx > v.length then (.error .indexOutOfRange, v, heap)
  else (.ok (), v, fun a => if a = v.data_ + (idx - 1).toNat then val else heap a)

/-- The compiler-generated copy constructor: copies data_ and length_ and
shares the owner_ handle (incrementing its reference count); the pointee
storage is not duplicated. -/
def copy (v : TensorView) : TensorView := ⟨v.data_, v.length_, v.owner_⟩

end TensorView

/-- Example view of the worked scenario: a five-element buffer based at
address 100, with a non-null owner handle. -/
def exView : TensorView := ⟨100, 5, true⟩

/-- Example memory of the worked scenario: the buffer [10, 20, 30, 40, 50]
at addresses 100..104, zero elsewhere. -/
def exHeap : Heap Int := fun a => [10, 20, 30, 40, 50].getD (a - 100) 0

namespace TensorView

variable {α : Type}

/-- Helper: get fails with indexOutOfRange exactly when the source check
idx < 1 || idx > static_cast<int>(length_) holds. -/
theorem get_eq_error_iff (v : TensorView) (heap : Heap α) (i : Int) :
    v.get heap i = .error .indexOutOfRange ↔ (i < 1 ∨ v.length < i) := by
  unfold TensorView.get
  split
  next h => exact iff_of_true rfl (by omega)
  next h => exact iff_of_false (fun hh => Except.noConfusion hh) (by omega)

/-- Helper: set fails with indexOutOfRange exactly when the source check
idx < 1 || idx > static_cast<int>(length_) holds. -/
theorem set_fst_eq_error_iff (v : TensorView) (heap : Heap α) (i : Int) (val : α) :
    (v.set heap i val).1 = .error .indexOutOfRange ↔ (i < 1 ∨ v.length < i) := by
  unfold TensorView.set
  split
  next h => exact iff_of_true rfl (by omega)
  next h => exact iff_of_false (fun hh => Except.noConfusion hh) (by omega)

/-- Helper: when the element count fits below 2^31, the narrowing cast in
length() is the identity. -/
theorem length_of_small (v : TensorView) (h : v.length_ < intHalfModulus) :
    v.length = (v.length_ : Int) := by
  have hm : v.length_ % intModulus = v.length_ :=
    Nat.mod_eq_of_lt (lt_of_lt_of_le h (by norm_num [intHalfModulus, intModulus]))
  simp [TensorView.length, intOfSizeT, hm, h]

/-- Claim C1: for every view and integer index i, get raises
indexOutOfRange exactly when i falls outside [1, length()], and set uses
the same bounds rule and failure condition; in particular get 0,
get (length() + 1) and get (-1) each raise indexOutOfRange. -/
theorem get_set_bounds_iff (v : TensorView) (heap : Heap α) (i : Int) (val : α) :
    (v.get heap i = .error .indexOutOfRange ↔ ¬ (1 ≤ i ∧ i ≤ v.length)) ∧
    ((v.set heap i val).1 = .error .indexOutOfRange ↔ ¬ (1 ≤ i ∧ i ≤ v.length)) ∧
    v.get heap 0 = .error .indexOutOfRange ∧
    v.get heap (v.length + 1) = .error .indexOutOfRange ∧
    v.get heap (-1) = .error .indexOutOfRange := by
  refine ⟨?_, ?_, ?_, ?_, ?_⟩
  · rw [get_eq_error_iff]; omega
  · rw [set_fst_eq_error_iff]; omega
  · rw [get_eq_error_iff]; omega
  · rw [get_eq_error_iff]; omega
  · rw [get_eq_error_iff]; omega

/-- Instantiation of get_set_bounds_iff on the concrete example view:
get 0 and get (-1) raise indexOutOfRange. -/
theorem get_set_bounds_iff_witness :
    exView.get exHeap 0 = .error .indexOutOfRange ∧
    exView.get exHeap (-1) = .error .indexOutOfRange :=
  ⟨(get_set_bounds_iff exView exHeap 0 (0 : Int)).2.2.1,
   (get_set_bounds_iff exView exHeap (-1) (0 : Int)).2.2.2.2⟩

/-- Claim C2: for every view and every i in [1, length()], get i returns
the value currently stored at internal position i - 1 of the pointee
storage, and set i val followed by get i returns val. -/
theorem get_set_in_range (v : TensorView) (heap : Heap α) (i : Int) (val : α)
    (h1 : 1 ≤ i) (h2 : i ≤ v.length) :
    v.get heap i = .ok (heap (v.data_ + (i - 1).toNat)) ∧
    (v.set heap i val).2.1.get (v.set heap i val).2.2 i = .ok val := by
  have hc : ¬ (i < 1 ∨ i > v.length) := by omega
  constructor
  · unfold TensorView.get
    rw [if_neg hc]
  · show ((v.set heap i val).2.1.get (v.set heap i val).2.2 i = .ok val)
    unfold TensorView.set
    rw [if_neg hc]
    show (v.get (fun a => if a = v.data_ + (i - 1).toNat then val else heap a) i = .ok val)
    unfold TensorView.get
    rw [if_neg hc]
    simp

/-- Worked scenario of claim C2, by instantiating get_set_in_range on the
buffer [10, 20, 30, 40, 50]: get 1 is 10, get 5 is 50, get 6 raises
indexOutOfRange, and set 3 99 followed by get 3 yields 99. -/
theorem get_set_in_range_witness :
    exView.get exHeap 1 = .ok 10 ∧ exView.get exHeap 5 = .ok 50 ∧
    exView.get exHeap 6 = .error .indexOutOfRange ∧
    (exView.set exHeap 3 99).2.1.get (exView.set exHeap 3 99).2.2 3 = .ok 99 := by
  refine ⟨?_, ?_, ?_, ?_⟩
  · rw [(get_set_in_range exView exHeap 1 (0 : Int) (by decide) (by decide)).1]; rfl
  · rw [(get_set_in_range exView exHeap 5 (0 : Int) (by decide) (by decide)).1]; rfl
  · rfl
  · exact (get_set_in_range exView exHeap 3 (99 : Int) (by decide) (by decide)).2

/-- Claim C3: size() returns the element count at full native width,
length() returns that count through the narrowing cast to int, and the
two agree whenever the count is representable in the host int width. -/
theorem length_size_width (v : TensorView) :
    v.size = v.length_ ∧ v.length = intOfSizeT v.length_ ∧
    (v.size < intHalfModulus → v.length = (v.size : Int)) :=
  ⟨rfl, rfl, fun h => length_of_small v h⟩

/-- Instantiation of length_size_width on the concrete example view:
its count 5 is representable, so length() equals size(). -/
theorem length_size_width_witness :
    exView.size < intHalfModulus ∧ exView.length = (exView.size : Int) :=
  ⟨by decide, (length_size_width exView).2.2 (by decide)⟩

/-- Counterexample to claim C4 as stated: a view over 2^32 elements is
not empty (its full-width count is nonzero), yet length() is 0 because
the narrowing cast wraps, so empty() does not coincide with
length() == 0. -/
theorem empty_length_cex :
    ¬ (((⟨1, 4294967296, true⟩ : TensorView).empty = true) ↔
       ((⟨1, 4294967296, true⟩ : TensorView).length = 0)) := by decide

/-- Claim C4, amended: empty() is true exactly when size() is 0 and
isValid() is true exactly when the wrapped pointer is non-null; moreover
whenever the count fits the host int width, empty() coincides with
length() == 0. -/
theorem empty_isValid_spec (v : TensorView) :
    (v.empty = true ↔ v.size = 0) ∧ (v.isValid = true ↔ v.data ≠ 0) ∧
    (v.size < intHalfModulus → (v.empty = true ↔ v.length = 0)) := by
  refine ⟨?_, ?_, fun h => ?_⟩
  · simp [TensorView.empty, TensorView.size]
  · simp [TensorView.isValid, TensorView.data]
  · rw [length_of_small v h]
    simp [TensorView.empty]

/-- Instantiation of empty_isValid_spec on the default view, whose count
0 fits the host int width. -/
theorem empty_isValid_spec_witness :
    (defaultView.empty = true ↔ defaultView.length = 0) ∧
    (defaultView.isValid = true ↔ defaultView.data ≠ 0) :=
  ⟨(empty_isValid_spec defaultView).2.2 (by decide),
   (empty_isValid_spec defaultView).2.1⟩

/-- Claim C5: the default-constructed view has a null pointer, count 0
and no owner; it is empty and invalid at the same time, its raw pointer
accessor returns the null value, and length() is 0. -/
theorem default_view_spec :
    defaultView.data_ = 0 ∧ defaultView.length_ = 0 ∧ defaultView.owner_ = false ∧
    defaultView.empty = true ∧ defaultView.isValid = false ∧
    defaultView.data = 0 ∧ defaultView.length = 0 := by decide

/-- Claim C6: every operation other than get and set is total. In the
embedding each of these operations is a plain function whose result type
carries no error case, unlike get and set; this theorem records that on
every input triple the construction succeeds and each accessor returns
the stated value, with no failure path. -/
theorem ops_total (d l : Nat) (o : Bool) :
    (TensorView.mk d l o).length = intOfSizeT l ∧
    (TensorView.mk d l o).size = l ∧
    (TensorView.mk d l o).data = d ∧
    (TensorView.mk d l o).empty = (l == 0) ∧
    (TensorView.mk d l o).isValid = (d != 0) ∧
    defaultView = TensorView.mk 0 0 false :=
  ⟨rfl, rfl, rfl, rfl, rfl, rfl⟩

/-- Claim C7: no operation changes the pointer, count or owner fields of
the view. The accessors and get are const member functions, embedded as
functions that return a result without producing a view; set is the one
non-const member, and the view it returns has all three fields unchanged:
only the pointee storage can change. -/
theorem set_preserves_view (v : TensorView) (heap : Heap α) (i : Int) (val : α) :
    (v.set heap i val).2.1.data_ = v.data_ ∧
    (v.set heap i val).2.1.length_ = v.length_ ∧
    (v.set heap i val).2.1.owner_ = v.owner_ := by
  unfold TensorView.set
  split <;> exact ⟨rfl, rfl, rfl⟩

/-- Claim C8: copying a view duplicates the pointer and count and shares
the owner handle without duplicating the pointee storage, so the copy
answers get and set over the same memory exactly as the original. The
dependence of get and set on the copy and the memory alone means the
behaviour does not change when the original view is dropped. -/
theorem copy_spec (v : TensorView) (heap : Heap α) (i : Int) (val : α) :
    v.copy.data_ = v.data_ ∧ v.copy.length_ = v.length_ ∧
    v.copy.owner_ = v.owner_ ∧
    v.copy.get heap i = v.get heap i ∧
    v.copy.set heap i val = v.set heap i val :=
  ⟨rfl, rfl, rfl, rfl, rfl⟩

/-- Claim C9: when the index is out of bounds, set raises indexOutOfRange
and returns the memory unchanged: the bounds check precedes any write, so
a failed set has no side effect on any element. -/
theorem set_out_of_range_no_write (v : TensorView) (heap : Heap α) (i : Int)
    (val : α) (h : ¬ (1 ≤ i ∧ i ≤ v.length)) :
    (v.set heap i val).1 = .error .indexOutOfRange ∧
    (v.set heap i val).2.2 = heap := by
  have hc : i < 1 ∨ i > v.length := by omega
  unfold TensorView.set
  rw [if_pos hc]
  exact ⟨rfl, rfl⟩

/-- Instantiation of set_out_of_range_no_write on the concrete example
view at the out-of-bounds index 6. -/
theorem set_out_of_range_no_write_witness :
    (exView.set exHeap 6 (99 : Int)).1 = .error .indexOutOfRange ∧
    (exView.set exHeap 6 (99 : Int)).2.2 = exHeap :=
  set_out_of_range_no_write exView exHeap 6 99 (by decide)

/-- Claim C10: when the index i is in bounds, set succeeds, writes val at
internal position i - 1, and leaves every other address of the memory at
its previous value. -/
theorem set_in_range_frame (v : TensorView) (heap : Heap α) (i : Int) (val : α)
    (h1 : 1 ≤ i) (h2 : i ≤ v.length) :
    (v.set heap i val).1 = .ok () ∧
    (v.set heap i val).2.2 (v.data_ + (i - 1).toNat) = val ∧
    ∀ a : Nat, a ≠ v.data_ + (i - 1).toNat → (v.set heap i val).2.2 a = heap a := by
  have hc : ¬ (i < 1 ∨ i > v.length) := by omega
  unfold TensorView.set
  rw [if_neg hc]
  exact ⟨rfl, if_pos rfl, fun a ha => if_neg ha⟩

/-- Instantiation of set_in_range_frame on the concrete example view:
set 3 99 succeeds, writes 99 at address 102, and address 101 keeps its
previous value. -/
theorem set_in_range_frame_witness :
    (exView.set exHeap 3 (99 : Int)).1 = .ok () ∧
    (exView.set exHeap 3 (99 : Int)).2.2 102 = 99 ∧
    (exView.set exHeap 3 (99 : Int)).2.2 101 = exHeap 101 := by
  have h := set_in_range_frame exView exHeap 3 (99 : Int) (by decide) (by decide)
  exact ⟨h.1, h.2.1, h.2.2 101 (by decide)⟩

end TensorView
